import Mathlib

/-!
Shallow embedding of the trading decision pipeline of agentic-hedge-fund:
decision resolution (src/agents/portfolio_manager.py), trade execution
(src/agents/trading_executor.py), the run orchestration (src/main.py),
the autonomous scheduler (src/scheduler.py), and the sentiment producer
(src/agents/sentiment.py).  Machine floats of the source are modelled as
exact rationals; python dicts keyed by ticker are modelled as association
lists; a python function that may raise is modelled as an Except value.
-/

deriving instance DecidableEq for Except

namespace HedgeFund

/-! ### Decision resolution (src/agents/portfolio_manager.py)

PortfolioDecision mirrors the pydantic model at lines 15-19: action is one
of buy, sell, hold; quantity is an int with no range constraint; confidence
is a float with no range constraint.
-/

structure PortfolioDecision where
  action : String
  quantity : Int
  confidence : ℚ
  reasoning : String
deriving Repr, DecidableEq

/-- Raw decision fields as found in the decision-generation collaborator
response, before the pydantic validation at lines 250-256. -/
structure RawDecision where
  action : String
  quantity : Int
  confidence : ℚ
  reasoning : String
deriving Repr, DecidableEq

/-- The str.lower() of the source, written over the character list so that
it evaluates by kernel reduction. -/
def lowerStr (s : String) : String := String.mk (s.data.map Char.toLower)

def validActions : List String := ["buy", "sell", "hold"]

/-- Validation performed at portfolio_manager.py lines 250-258: the action
string is lowercased and must be one of the literals buy, sell, hold, or a
ValueError is raised for that decision. -/
def validateDecision (r : RawDecision) : Except String PortfolioDecision :=
  let act := lowerStr r.action
  if act ∈ validActions then
    Except.ok ⟨act, r.quantity, r.confidence, r.reasoning⟩
  else
    Except.error "Invalid value in decision"

/-- make_decision, lines 239-263: each decision of the collaborator response
is validated in order (the first invalid one aborts the whole call), and an
empty decisions map raises.  The llmResponse argument stands for the
decisions dict of the parsed collaborator response; Except.error stands for
a collaborator failure (model invocation or response parsing). -/
def makeDecision (llmResponse : Except String (List (String × RawDecision))) :
    Except String (List (String × PortfolioDecision)) := do
  let raw ← llmResponse
  let ds ← raw.mapM (fun p => (validateDecision p.2).map (fun d => (p.1, d)))
  if ds.isEmpty then
    Except.error "No valid decisions in response"
  else
    pure ds

/-- Rationale suffix appended at line 117 when the quantity is reduced. -/
def clampMessage (maxAllowed : Int) : String :=
  "\nQuantity adjusted to " ++ toString maxAllowed ++ " due to position limits."

/-- Per-decision post-processing at portfolio_manager.py lines 111-117: only
when the action is not hold, the quantity is reduced to
max_shares.get(ticker, 0) when it exceeds it, with the clamp reason appended
to the reasoning.  A hold decision is returned unchanged. -/
def clampDecision (maxShares : List (String × Int)) (ticker : String)
    (d : PortfolioDecision) : PortfolioDecision :=
  if d.action ≠ "hold" then
    let maxAllowed := (maxShares.lookup ticker).getD 0
    if d.quantity > maxAllowed then
      { d with quantity := maxAllowed,
               reasoning := d.reasoning ++ clampMessage maxAllowed }
    else d
  else d

/-- Safe-default decision used by the fallback paths of
portfolio_management_agent (lines 126-131 and 158-166). -/
def holdDecision (reasoning : String) : PortfolioDecision :=
  ⟨"hold", 0, 0, reasoning⟩

/-- Decision resolution of portfolio_management_agent, lines 104-168: when
make_decision raises, every requested ticker receives a hold decision with
quantity 0 (lines 158-166); when it returns, the loop at lines 109-131
iterates over the tickers of the returned decisions map only, applying the
clamp post-processing to each. -/
def resolveDecisions (tickers : List String) (maxShares : List (String × Int))
    (collab : Except String (List (String × PortfolioDecision))) :
    List (String × PortfolioDecision) :=
  match collab with
  | Except.error e =>
      tickers.map (fun t => (t, holdDecision ("Error in decision making: " ++ e)))
  | Except.ok ds =>
      ds.map (fun p => (p.1, clampDecision maxShares p.1 p.2))

/-! ### Trade execution (src/agents/trading_executor.py)

JsonDecision models one entry of the json dict parsed from the last
workflow message; every field is read with .get and a default, so all
fields are optional. -/

structure JsonDecision where
  action : Option String
  quantity : Option Int
  confidence : Option ℚ
  reasoning : Option String
deriving Repr, DecidableEq

/-- The message content written by portfolio_management_agent at lines
134-137: the json dump of the resolved decisions, every field present. -/
def decisionsMessage (ds : List (String × PortfolioDecision)) :
    List (String × JsonDecision) :=
  ds.map (fun p => (p.1, ⟨some p.2.action, some p.2.quantity,
                          some p.2.confidence, some p.2.reasoning⟩))

inductive ExecStatus where
  | success
  | failure
deriving Repr, DecidableEq

/-- One entry of the execution_results dict.  The source records
success entries as dicts with status, action, quantity and order_id keys
(line 83) and failure entries as dicts with status and error keys
(line 89, status string literal "error"). -/
structure ExecOutcome where
  status : ExecStatus
  action : Option String
  quantity : Option Int
  orderId : Option String
  errorMessage : Option String
deriving Repr, DecidableEq

def successOutcome (action : String) (quantity : Int) (orderId : String) :
    ExecOutcome :=
  ⟨ExecStatus.success, some action, some quantity, some orderId, none⟩

def failureOutcome (msg : String) : ExecOutcome :=
  ⟨ExecStatus.failure, none, none, none, some msg⟩

/-- Action read from the decision dict with the empty-string default and
lowercased, line 70. -/
def decisionAction (d : JsonDecision) : String := lowerStr (d.action.getD "")

/-- Quantity read from the decision dict with default 0, line 71. -/
def decisionQuantity (d : JsonDecision) : Int := d.quantity.getD 0

/-- Negation of the skip condition at line 73: a decision is submitted as an
order exactly when its action is buy or sell and its quantity is positive. -/
def submittable (d : JsonDecision) : Bool :=
  (decisionAction d == "buy" || decisionAction d == "sell")
    && decide (decisionQuantity d > 0)

/-- The per-decision loop of execute_portfolio_decisions, lines 67-90.
placeOrder models broker.place_order for one ticker, action and quantity:
Except.error is an exception raised during order creation or submission.
A skipped decision records nothing (the loop continues at line 75 before
touching execution_results); a submitted decision records exactly one
outcome, a failure being caught by the except at lines 87-90 and recorded
as a failure entry, after which the loop proceeds with the next decision. -/
def executeDecisions (placeOrder : String → String → Int → Except String String) :
    List (String × JsonDecision) → List (String × ExecOutcome)
  | [] => []
  | (t, d) :: rest =>
    if submittable d then
      match placeOrder t (decisionAction d) (decisionQuantity d) with
      | Except.ok orderId =>
          (t, successOutcome (decisionAction d) (decisionQuantity d) orderId) ::
            executeDecisions placeOrder rest
      | Except.error e =>
          (t, failureOutcome e) :: executeDecisions placeOrder rest
    else
      executeDecisions placeOrder rest

/-- Broker-session flag of TradingExecutor (self.connected, line 18). -/
structure ExecutorState where
  connected : Bool
deriving Repr, DecidableEq

/-- The workflow final state as consumed by the executor and the response
parsing: the json parse of the last message content (Except.error stands
for a json.JSONDecodeError or for the messages holding no decisions dump),
the analyst_signals entry of the data dict, and the execution_results entry
when already present.  The analyst signals payload is never inspected by
the claims and is modelled as an association list of strings. -/
structure FinalState where
  lastMessageJson : Except String (List (String × JsonDecision))
  analystSignals : List (String × String)
  executionResults : Option (List (String × ExecOutcome))
deriving Repr, DecidableEq

/-- execute_portfolio_decisions, lines 43-114: an unparseable or empty
decisions message returns the state unchanged before any broker use
(lines 47-60); otherwise the broker session is connected lazily
(lines 62-64), the decisions are executed, and the results are written into
the state.  No path disconnects the session; the reconciliation read
(_update_portfolio_state) absorbs its own failures and does not touch the
session either.  The function returns the executor state and the run state;
its blanket except at lines 111-114 makes it total. -/
def executePortfolioDecisions
    (placeOrder : String → String → Int → Except String String)
    (ex : ExecutorState) (s : FinalState) : ExecutorState × FinalState :=
  match s.lastMessageJson with
  | Except.error _ => (ex, s)
  | Except.ok ds =>
      if ds.isEmpty then (ex, s)
      else
        (⟨true⟩,
         { s with executionResults := some (executeDecisions placeOrder ds) })

/-! ### Run orchestration (src/main.py) -/

/-- One decision as returned by parse_hedge_fund_response, lines 166-173:
every field read with .get and a default. -/
structure ParsedDecision where
  action : String
  quantity : Int
  confidence : ℚ
  reasoning : String
deriving Repr, DecidableEq

def parseDecision (d : JsonDecision) : ParsedDecision :=
  ⟨d.action.getD "HOLD", d.quantity.getD 0,
   d.confidence.getD 0, d.reasoning.getD "No reasoning provided"⟩

/-- parse_hedge_fund_response, lines 157-178: any internal failure (the json
parse raising) is caught and None is returned. -/
def parseHedgeFundResponse
    (content : Except String (List (String × JsonDecision))) :
    Option (List (String × ParsedDecision)) :=
  match content with
  | Except.error _ => none
  | Except.ok ds => some (ds.map (fun p => (p.1, parseDecision p.2)))

/-- The dictionary returned by run_hedge_fund, plus two observability
fields: whether progress.stop() ran before returning, and whether the
broker session is still connected at the moment of the return. -/
structure RunResult where
  decisions : Option (List (String × ParsedDecision))
  analystSignals : Option (List (String × String))
  executionResults : Option (List (String × ExecOutcome))
  error : Option String
  progressStopped : Bool
  brokerConnected : Bool
deriving Repr, DecidableEq

/-- run_hedge_fund, lines 99-155.  executorConstruction models the
TradingExecutor constructor (which raises when the broker client cannot be
built); workflow models agent.invoke on the initial state (which raises on
a workflow-level error).  Either exception is caught at lines 146-153 and
turned into the dictionary with None in the three result fields and the
message under the error key; the finally at lines 154-155 stops the
progress reporter on every path.  On the success path the decisions field
is the parse of the final message, the analyst_signals entry is passed
through, and execution_results defaults to the empty dict when the executor
recorded nothing.  No path disconnects the broker session. -/
def runHedgeFund (executorConstruction : Except String Unit)
    (workflow : Except String FinalState)
    (placeOrder : String → String → Int → Except String String) : RunResult :=
  match executorConstruction with
  | Except.error e => ⟨none, none, none, some e, true, false⟩
  | Except.ok _ =>
    match workflow with
    | Except.error e => ⟨none, none, none, some e, true, false⟩
    | Except.ok fs =>
        let r := executePortfolioDecisions placeOrder ⟨false⟩ fs
        ⟨parseHedgeFundResponse r.2.lastMessageJson,
         some r.2.analystSignals,
         some (r.2.executionResults.getD []),
         none, true, r.1.connected⟩

/-! ### Autonomous scheduler (src/scheduler.py) -/

/-- Interval bounds loaded from the environment at scheduler.py
lines 79-80 (MIN_TRADING_INTERVAL, MAX_TRADING_INTERVAL). -/
structure SchedulerConfig where
  minInterval : Int
  maxInterval : Int
deriving Repr, DecidableEq

/-- Observable scheduler state: the ids of the registered jobs and whether
the background scheduler was started. -/
structure SchedulerState where
  jobs : List String
  running : Bool
deriving Repr, DecidableEq

/-- TradingScheduler.start, lines 76-103: the interval is validated against
the configured bounds first, a ValueError being raised before any job is
registered or the scheduler started; in range, the trading_cycle interval
job is added, the market_open cron job is added when gating is enabled, and
the background scheduler is started. -/
def schedulerStart (cfg : SchedulerConfig) (tradingHoursOnly : Bool)
    (s : SchedulerState) (intervalMinutes : Int) : Except String SchedulerState :=
  if ¬ (cfg.minInterval ≤ intervalMinutes ∧ intervalMinutes ≤ cfg.maxInterval) then
    Except.error ("Trading interval must be between " ++ toString cfg.minInterval
      ++ " and " ++ toString cfg.maxInterval ++ " minutes")
  else
    let s1 : SchedulerState := { s with jobs := s.jobs ++ ["trading_cycle"] }
    let s2 : SchedulerState :=
      if tradingHoursOnly then { s1 with jobs := s1.jobs ++ ["market_open"] }
      else s1
    Except.ok { s2 with running := true }

/-- Outcome of one scheduler tick as recorded by _execute_trading_cycle.
A failed outcome carries the number of attempts made and the last error
message (lines 68-70); marketClosed is the early return at lines 52-56;
noRun is the degenerate case of a zero retry budget, where the while loop
body never runs and nothing is recorded. -/
inductive TickOutcome where
  | succeeded
  | failed (attempts : Nat) (msg : String)
  | marketClosed
  | noRun
deriving Repr, DecidableEq

/-- One tick result: the outcome together with the sleeps performed between
attempts, in order (time.sleep(self.retry_delay) at line 74). -/
structure TickResult where
  outcome : TickOutcome
  delays : List Nat
deriving Repr, DecidableEq

/-- The retry loop of _execute_trading_cycle, lines 58-74.  runs k is the
result of the (k+1)-th call of run_trading_cycle within the tick, an
Except.error standing for the call raising.  The loop runs while
attempts < retry_attempts; the argument remaining equals
retry_attempts - attempts and decreases by one per failed attempt.  A
non-raising call breaks out with a success record; a raising call
increments attempts and either records the tick as failed when the budget
is exhausted or sleeps for retryDelay seconds and retries. -/
def retryLoopAux (runs : Nat → Except String Unit) (retryDelay : Nat) :
    Nat → Nat → List Nat → TickResult
  | 0, _, delays => ⟨TickOutcome.noRun, delays⟩
  | remaining + 1, attempts, delays =>
    match runs attempts with
    | Except.ok _ => ⟨TickOutcome.succeeded, delays⟩
    | Except.error e =>
        if remaining = 0 then ⟨TickOutcome.failed (attempts + 1) e, delays⟩
        else retryLoopAux runs retryDelay remaining (attempts + 1)
               (delays ++ [retryDelay])

/-- Gate predicate _can_trade_now, lines 43-48: gating disabled means always tradable,
otherwise the market-open predicate decides. -/
def canTradeNow (tradingHoursOnly marketOpen : Bool) : Bool :=
  !tradingHoursOnly || marketOpen

/-- Tick body _execute_trading_cycle, lines 50-74: the market-hours gate first
(a closed market skips the tick, lines 52-56), then the bounded retry
loop.  The function is total: a tick that exhausts its retries records a
failed outcome and returns normally, so the scheduler proceeds to later
ticks. -/
def executeTradingCycle (tradingHoursOnly marketOpen : Bool)
    (runs : Nat → Except String Unit) (retryAttempts retryDelay : Nat) :
    TickResult :=
  if canTradeNow tradingHoursOnly marketOpen then
    retryLoopAux runs retryDelay retryAttempts 0 []
  else
    ⟨TickOutcome.marketClosed, []⟩

/-- A sequence of scheduler ticks: each tick supplies the market-open
predicate value at its time and its sequence of run attempts.  The
background scheduler invokes _execute_trading_cycle once per tick; since
that function is total, every tick of the sequence yields a record. -/
def schedulerTicks (tradingHoursOnly : Bool)
    (ticks : List (Bool × (Nat → Except String Unit)))
    (retryAttempts retryDelay : Nat) : List TickResult :=
  ticks.map (fun t =>
    executeTradingCycle tradingHoursOnly t.1 t.2 retryAttempts retryDelay)

/-! ### Composition of the scheduler tick with run_trading_cycle
(src/main.py lines 181-231 together with src/scheduler.py line 61) -/

/-- The dictionary returned by run_trading_cycle: decisions, analyst
signals, and an error entry; the except path at main.py:221-223 returns it
with None decisions and signals and the message under the error key. -/
structure CycleOutput where
  decisions : Option (List (String × ParsedDecision))
  analystSignals : Option (List (String × String))
  error : Option String
deriving Repr, DecidableEq

/-- run_trading_cycle, main.py:181-231: the setup before the run (workflow
compilation, date handling, portfolio construction) may raise, caught at
lines 221-223 and returned as an error dict; run_hedge_fund itself is
total (see runHedgeFund), and the guard at line 216 reads the status key
of its result, a key run_hedge_fund never writes (it writes the error
key), so the get yields None, the guard is dead, and the result dict is
returned as-is even when it carries an error entry.  The function never
raises: its return type, rather than an Except, is the formalisation of
the blanket except at lines 221-223. -/
def runTradingCycle (setup : Except String Unit) (run : RunResult) :
    CycleOutput :=
  match setup with
  | Except.error e => ⟨none, none, some e⟩
  | Except.ok _ =>
      if (none : Option String) = some "error" then
        ⟨none, none, run.error⟩
      else
        ⟨run.decisions, run.analystSignals, run.error⟩

/-- The attempt the retry loop of scheduler.py:58-74 actually performs at
line 61: a call of run_trading_cycle.  The call is a total function, its
result is bound and tested for truthiness (a non-empty dict, always true)
by the log guard at lines 62-64, and nothing in the try block can raise,
so the attempt always completes without exception, whatever result dict
(error entry included) the cycle produced. -/
def cycleAttempt (setup : Except String Unit) (run : RunResult)
    (_attempt : Nat) : Except String Unit :=
  let _result := runTradingCycle setup run
  Except.ok ()

/-! ### Sentiment producer (src/agents/sentiment.py) -/

inductive NewsSentiment where
  | positive
  | negative
  | neutral
deriving Repr, DecidableEq

/-- Insider-trade signals at line 41: a transaction with negative shares is
bearish, any other bullish. -/
def insiderSignalsOf (transactionShares : List Int) : List String :=
  transactionShares.map (fun s => if s < 0 then "bearish" else "bullish")

/-- News signals at lines 54-55: negative sentiment is bearish, positive is
bullish, anything else neutral. -/
def newsSignalsOf (news : List NewsSentiment) : List String :=
  news.map (fun n =>
    match n with
    | NewsSentiment.negative => "bearish"
    | NewsSentiment.positive => "bullish"
    | NewsSentiment.neutral => "neutral")

/-- Fraction of bullish entries, defaulting to one half on an empty signal
list (lines 63-68). -/
def bullishFrac (signals : List String) : ℚ :=
  if signals.isEmpty then 1/2
  else (signals.count "bullish" : ℚ) / (signals.length : ℚ)

def bearishFrac (signals : List String) : ℚ :=
  if signals.isEmpty then 1/2
  else (signals.count "bearish" : ℚ) / (signals.length : ℚ)

def insiderWeight : ℚ := 3/10

def newsWeight : ℚ := 7/10

/-- The signal combination of sentiment_agent, lines 58-87: weighted
bullish and bearish scores, the larger side chosen (ties going bearish),
and the confidence computed as (score - 0.5) * 200. -/
def sentimentSignal (transactionShares : List Int)
    (news : List NewsSentiment) : String × ℚ :=
  let insiderSignals := insiderSignalsOf transactionShares
  let newsSignals := newsSignalsOf news
  let combinedBullish :=
    insiderWeight * bullishFrac insiderSignals + newsWeight * bullishFrac newsSignals
  let combinedBearish :=
    insiderWeight * bearishFrac insiderSignals + newsWeight * bearishFrac newsSignals
  if combinedBullish > combinedBearish then
    ("bullish", (combinedBullish - 1/2) * 200)
  else
    ("bearish", (combinedBearish - 1/2) * 200)

/-! ### Concrete inputs used by counterexamples and witnesses -/

/-- A collaborator response covering only AAPL out of the requested pair. -/
def sampleCollabSubset : Except String (List (String × PortfolioDecision)) :=
  Except.ok [("AAPL", ⟨"buy", 5, 80, "strong"⟩)]

/-- A full run over requested instruments AAPL and MSFT whose collaborator
response covers only AAPL. -/
def sampleRunSubset : RunResult :=
  runHedgeFund (Except.ok ())
    (Except.ok ⟨Except.ok (decisionsMessage (resolveDecisions ["AAPL", "MSFT"]
        [("AAPL", 100), ("MSFT", 100)] sampleCollabSubset)),
      [("sentiment_agent", "sig")], none⟩)
    (fun _ _ _ => Except.ok "order-1")

/-- A collaborator-returned hold decision with a huge quantity. -/
def holdOversized : PortfolioDecision := ⟨"hold", 1000000000, 90, "llm hold"⟩

/-- A collaborator-returned hold decision with a nonzero quantity. -/
def holdSeven : PortfolioDecision := ⟨"hold", 7, 10, "keep some"⟩

/-- A hold decision as seen by the execution stage. -/
def holdJson : JsonDecision := ⟨some "hold", some 0, some 0, some "sit tight"⟩

def buyFive : JsonDecision := ⟨some "buy", some 5, some 80, some "go"⟩

def buyThree : JsonDecision := ⟨some "buy", some 3, some 70, some "go"⟩

/-- A broker whose order submission fails for AAPL and succeeds elsewhere. -/
def samplePlace (t : String) (_action : String) (_q : Int) :
    Except String String :=
  if t == "AAPL" then Except.error "network down" else Except.ok "order-2"

/-- A workflow final state holding one submittable decision. -/
def sampleBuyState : FinalState :=
  ⟨Except.ok [("MSFT", buyThree)], [("sentiment_agent", "sig")], none⟩

/-- A workflow final state whose last message is not a decisions dump. -/
def sampleUnparsedState : FinalState :=
  ⟨Except.error "Expecting value", [("sentiment_agent", "sig")], none⟩

/-- Run attempts that raise twice and then succeed. -/
def runsTwoFailThenOk (n : Nat) : Except String Unit :=
  if n < 2 then Except.error "boom" else Except.ok ()

/-- Run attempts that always raise. -/
def runsAlwaysFail (_n : Nat) : Except String Unit := Except.error "down"

/-- The result dict of a pipeline run whose workflow invocation raised:
run_hedge_fund catches the exception and returns the error dict. -/
def failedPipelineRun : RunResult :=
  runHedgeFund (Except.ok ()) (Except.error "boom")
    (fun _ _ _ => Except.ok "oid")

/-! ### Theorems -/

/-- Helper: the execution stage only writes execution_results; the message
content and the analyst signals of the run state are untouched. -/
theorem executePortfolioDecisions_fields
    (placeOrder : String → String → Int → Except String String)
    (ex : ExecutorState) (s : FinalState) :
    ((executePortfolioDecisions placeOrder ex s).2).analystSignals =
      s.analystSignals ∧
    ((executePortfolioDecisions placeOrder ex s).2).lastMessageJson =
      s.lastMessageJson := by
  rcases hs : s.lastMessageJson with e | ds
  · simp [executePortfolioDecisions, hs]
  · by_cases hd : ds.isEmpty <;> simp [executePortfolioDecisions, hs, hd]

/-- C1 (amended): decision resolution yields one decision per requested
instrument only on the collaborator-failure path; on the success path the
decisions map has exactly the instruments of the collaborator response, so
a requested instrument the collaborator omitted is absent. -/
theorem resolveDecisions_keys (tickers : List String)
    (maxShares : List (String × Int)) (e : String)
    (ds : List (String × PortfolioDecision)) :
    (resolveDecisions tickers maxShares (Except.error e)).map Prod.fst =
      tickers ∧
    (resolveDecisions tickers maxShares (Except.ok ds)).map Prod.fst =
      ds.map Prod.fst := by
  constructor
  · simp only [resolveDecisions, List.map_map]
    exact List.map_id tickers
  · simp only [resolveDecisions, List.map_map]
    rfl

/-- C1 counterexample: requested instruments AAPL and MSFT, a collaborator
response covering only AAPL; the run completes without error yet the
returned decisions map has no entry for MSFT. -/
theorem run_drops_uncovered_ticker :
    sampleRunSubset.error = none ∧
    sampleRunSubset.decisions.isSome = true ∧
    (sampleRunSubset.decisions.getD []).lookup "MSFT" = none :=
  ⟨rfl, rfl, rfl⟩

/-- C2 (amended): for a resolved decision whose action is not hold, the
final quantity never exceeds max_shares.get(ticker, 0); when the requested
quantity exceeded it, the clamp reason is appended to the rationale; when
it did not, the decision is returned unchanged. -/
theorem clampDecision_bounds (maxShares : List (String × Int)) (t : String)
    (d : PortfolioDecision) (h : d.action ≠ "hold") :
    (clampDecision maxShares t d).quantity ≤ (maxShares.lookup t).getD 0 ∧
    ((maxShares.lookup t).getD 0 < d.quantity →
      (clampDecision maxShares t d).reasoning =
        d.reasoning ++ clampMessage ((maxShares.lookup t).getD 0)) ∧
    (d.quantity ≤ (maxShares.lookup t).getD 0 →
      clampDecision maxShares t d = d) := by
  unfold clampDecision
  rw [if_pos h]
  by_cases hq : d.quantity > (maxShares.lookup t).getD 0
  · rw [if_pos hq]
    exact ⟨le_refl _, fun _ => rfl, fun hle => absurd hq (not_lt.mpr hle)⟩
  · rw [if_neg hq]
    push_neg at hq
    exact ⟨hq, fun hlt => absurd hlt (not_lt.mpr hq), fun _ => rfl⟩

theorem clampDecision_bounds_witness :
    (clampDecision [("AAPL", 50)] "AAPL" ⟨"buy", 500, 80, "r"⟩).quantity ≤ 50 :=
  (clampDecision_bounds [("AAPL", 50)] "AAPL" ⟨"buy", 500, 80, "r"⟩
    (by decide)).1

/-- C2 counterexample: a collaborator-returned hold decision with quantity
one billion against a risk limit of 50 is passed through unclamped, so the
resolved quantity exceeds the limit. -/
theorem hold_quantity_unclamped :
    (resolveDecisions ["AAPL"] [("AAPL", 50)]
        (Except.ok [("AAPL", holdOversized)])).lookup "AAPL" =
      some holdOversized ∧
    ¬ (holdOversized.quantity ≤
        (([("AAPL", 50)] : List (String × Int)).lookup "AAPL").getD 0) :=
  ⟨rfl, by decide⟩

/-- C3 (amended): hold decisions with quantity 0 are guaranteed only on the
fallback path (collaborator failure), where every requested instrument
receives one; on the success path a hold decision returned by the
collaborator is passed through unchanged, its quantity included. -/
theorem fallback_hold_zero (tickers : List String)
    (maxShares m : List (String × Int)) (e : String) (t : String)
    (d : PortfolioDecision) :
    (∀ p ∈ resolveDecisions tickers maxShares (Except.error e),
       p.2.action = "hold" ∧ p.2.quantity = 0) ∧
    (d.action = "hold" → clampDecision m t d = d) := by
  constructor
  · intro p hp
    simp only [resolveDecisions, List.mem_map] at hp
    obtain ⟨t2, _, rfl⟩ := hp
    exact ⟨rfl, rfl⟩
  · intro hd
    unfold clampDecision
    rw [if_neg (by simp [hd])]

theorem fallback_hold_zero_witness :
    (("AAPL", holdDecision "Error in decision making: boom") ∈
      resolveDecisions ["AAPL"] [] (Except.error "boom")) ∧
    (("AAPL", holdDecision "Error in decision making: boom") :
        String × PortfolioDecision).2.action = "hold" ∧
    (("AAPL", holdDecision "Error in decision making: boom") :
        String × PortfolioDecision).2.quantity = 0 ∧
    clampDecision [] "AAPL" (holdDecision "x") = holdDecision "x" :=
  have hmem : ("AAPL", holdDecision "Error in decision making: boom") ∈
      resolveDecisions ["AAPL"] [] (Except.error "boom") := by
    simp [resolveDecisions]
  have h := fallback_hold_zero ["AAPL"] [] [] "boom" "AAPL" (holdDecision "x")
  ⟨hmem, (h.1 _ hmem).1, (h.1 _ hmem).2, h.2 rfl⟩

/-- C3 counterexample: a collaborator-returned decision with action hold
and quantity 7 survives resolution with its quantity intact. -/
theorem hold_quantity_passthrough :
    (resolveDecisions ["AAPL"] [("AAPL", 50)]
        (Except.ok [("AAPL", holdSeven)])).lookup "AAPL" = some holdSeven ∧
    holdSeven.action = "hold" ∧ holdSeven.quantity ≠ 0 :=
  ⟨rfl, rfl, by decide⟩

/-- C4 (amended): the execution-results map holds exactly one outcome per
submitted decision, in order; a decision skipped by the hold or
non-positive-quantity guard records no outcome at all. -/
theorem executeDecisions_keys
    (placeOrder : String → String → Int → Except String String)
    (ds : List (String × JsonDecision)) :
    (executeDecisions placeOrder ds).map Prod.fst =
      (ds.filter (fun p => submittable p.2)).map Prod.fst := by
  induction ds with
  | nil => rfl
  | cons hd tl ih =>
    obtain ⟨t, d⟩ := hd
    by_cases hs : submittable d
    · rcases hp : placeOrder t (decisionAction d) (decisionQuantity d) with e | oid <;>
        simp [executeDecisions, hs, hp, List.filter_cons, ih]
    · simp [executeDecisions, hs, List.filter_cons, ih]

/-- C4 counterexample: a hold decision is skipped with nothing recorded, so
the execution-results map has no entry for its instrument. -/
theorem skipped_decision_unrecorded :
    executeDecisions (fun _ _ _ => Except.ok "order-1") [("AAPL", holdJson)] =
      [] ∧
    (executeDecisions (fun _ _ _ => Except.ok "order-1")
        [("AAPL", holdJson)]).lookup "AAPL" = none :=
  ⟨by decide, by decide⟩

/-- C5 (confirmed): during execution fan-out over two distinct instruments
with submittable decisions, a failure submitting the first order is caught
and recorded as a failure outcome with the error message, and the second
order is still submitted with its own outcome recorded; the loop is a total
function, so no per-instrument failure escapes it. -/
theorem executeDecisions_failure_isolated
    (placeOrder : String → String → Int → Except String String)
    (a b : String) (da db : JsonDecision) (e : String)
    (hab : a ≠ b)
    (hda : submittable da = true) (hdb : submittable db = true)
    (hfail : placeOrder a (decisionAction da) (decisionQuantity da) =
      Except.error e) :
    (executeDecisions placeOrder [(a, da), (b, db)]).lookup a =
      some (failureOutcome e) ∧
    (executeDecisions placeOrder [(a, da), (b, db)]).lookup b =
      some (match placeOrder b (decisionAction db) (decisionQuantity db) with
            | Except.ok oid =>
                successOutcome (decisionAction db) (decisionQuantity db) oid
            | Except.error eb => failureOutcome eb) := by
  have hba : (a == b) = false := beq_eq_false_iff_ne.mpr hab
  have hab2 : (b == a) = false := beq_eq_false_iff_ne.mpr (Ne.symm hab)
  have haa : (a == a) = true := beq_self_eq_true a
  have hbb : (b == b) = true := beq_self_eq_true b
  rcases hpb : placeOrder b (decisionAction db) (decisionQuantity db) with
      eb | oid <;>
    simp [executeDecisions, hda, hdb, hfail, hpb, List.lookup, haa, hba,
      hab2, hbb]

theorem executeDecisions_failure_isolated_witness :
    (executeDecisions samplePlace [("AAPL", buyFive), ("MSFT", buyThree)]).lookup
        "AAPL" = some (failureOutcome "network down") ∧
    (executeDecisions samplePlace [("AAPL", buyFive), ("MSFT", buyThree)]).lookup
        "MSFT" = some (successOutcome "buy" 3 "order-2") :=
  have h := executeDecisions_failure_isolated samplePlace "AAPL" "MSFT"
    buyFive buyThree "network down" (by decide) (by decide) (by decide)
    (by decide)
  ⟨h.1, h.2⟩

/-- C6 (code bug): a run that submitted an order returns with the broker
session still connected: run_hedge_fund never calls disconnect, does not
use the executor as a context manager, and the executor is dropped with its
connection flag still set on the normal path as well as on every failure
path.  The second conjunct shows the lazy half of the claim: a run with
nothing to submit never connects. -/
theorem broker_connection_leaked :
    (runHedgeFund (Except.ok ()) (Except.ok sampleBuyState)
        (fun _ _ _ => Except.ok "order-7")).brokerConnected = true ∧
    (runHedgeFund (Except.ok ())
        (Except.ok ⟨Except.error "Expecting value", [], none⟩)
        (fun _ _ _ => Except.ok "order-7")).brokerConnected = false :=
  ⟨by decide, by decide⟩

/-- C7 (confirmed): an interval outside the configured bounds makes
TradingScheduler.start raise a configuration error before any job is
registered or the background scheduler started, while an interval inside
the bounds registers the trading_cycle job and starts the scheduler. -/
theorem schedulerStart_interval_validation (cfg : SchedulerConfig)
    (tho : Bool) (s : SchedulerState) (i : Int) :
    ((i < cfg.minInterval ∨ cfg.maxInterval < i) →
      schedulerStart cfg tho s i =
        Except.error ("Trading interval must be between "
          ++ toString cfg.minInterval ++ " and " ++ toString cfg.maxInterval
          ++ " minutes")) ∧
    (cfg.minInterval ≤ i → i ≤ cfg.maxInterval →
      ∃ s2, schedulerStart cfg tho s i = Except.ok s2 ∧
        "trading_cycle" ∈ s2.jobs ∧ s2.running = true) := by
  constructor
  · intro hout
    rw [schedulerStart, if_pos]
    omega
  · intro h1 h2
    rw [schedulerStart, if_neg (not_not_intro ⟨h1, h2⟩)]
    refine ⟨_, rfl, ?_, rfl⟩
    cases tho <;> simp

theorem schedulerStart_interval_validation_witness :
    schedulerStart ⟨5, 240⟩ true ⟨[], false⟩ 2 =
      Except.error "Trading interval must be between 5 and 240 minutes" ∧
    (∃ s2, schedulerStart ⟨5, 240⟩ true ⟨[], false⟩ 60 = Except.ok s2 ∧
      "trading_cycle" ∈ s2.jobs ∧ s2.running = true) :=
  ⟨(schedulerStart_interval_validation ⟨5, 240⟩ true ⟨[], false⟩ 2).1
      (Or.inl (by decide)),
   (schedulerStart_interval_validation ⟨5, 240⟩ true ⟨[], false⟩ 60).2
      (by decide) (by decide)⟩

/-- The retry loop of scheduler.py:58-74 considered in isolation, for a
hypothetical attempt that can raise: with a budget of 3, an attempt raising
twice then succeeding is recorded as succeeded after two fixed delays, and
three raising attempts are recorded as failed after the same two delays,
the tick function returning normally either way so later ticks still run.
This is the behavior the retry machinery implements; the composed program
never supplies a raising attempt (see cycleAttempt), which is what the
code-bug theorem below demonstrates. -/
theorem retry_tick_outcomes (rd : Nat)
    (runsA runsB nextRuns : Nat → Except String Unit)
    (eA0 eA1 eB0 eB1 eB2 : String) (nextOpen : Bool)
    (hA0 : runsA 0 = Except.error eA0) (hA1 : runsA 1 = Except.error eA1)
    (hA2 : runsA 2 = Except.ok ())
    (hB0 : runsB 0 = Except.error eB0) (hB1 : runsB 1 = Except.error eB1)
    (hB2 : runsB 2 = Except.error eB2) :
    executeTradingCycle true true runsA 3 rd =
      ⟨TickOutcome.succeeded, [rd, rd]⟩ ∧
    executeTradingCycle true true runsB 3 rd =
      ⟨TickOutcome.failed 3 eB2, [rd, rd]⟩ ∧
    schedulerTicks true [(true, runsB), (nextOpen, nextRuns)] 3 rd =
      [⟨TickOutcome.failed 3 eB2, [rd, rd]⟩,
       executeTradingCycle true nextOpen nextRuns 3 rd] := by
  have hA : executeTradingCycle true true runsA 3 rd =
      ⟨TickOutcome.succeeded, [rd, rd]⟩ := by
    show retryLoopAux runsA rd 3 0 [] = _
    rw [retryLoopAux, hA0]
    rw [show (2 : Nat) = 1 + 1 from rfl]
    rw [retryLoopAux, hA1]
    rw [show (1 : Nat) = 0 + 1 from rfl]
    rw [retryLoopAux, hA2]
    simp
  have hB : executeTradingCycle true true runsB 3 rd =
      ⟨TickOutcome.failed 3 eB2, [rd, rd]⟩ := by
    show retryLoopAux runsB rd 3 0 [] = _
    rw [retryLoopAux, hB0]
    rw [show (2 : Nat) = 1 + 1 from rfl]
    rw [retryLoopAux, hB1]
    rw [show (1 : Nat) = 0 + 1 from rfl]
    rw [retryLoopAux, hB2]
    simp
  exact ⟨hA, hB, by simp [schedulerTicks, hB]⟩

theorem retry_tick_outcomes_witness :
    executeTradingCycle true true runsTwoFailThenOk 3 5 =
      ⟨TickOutcome.succeeded, [5, 5]⟩ ∧
    executeTradingCycle true true runsAlwaysFail 3 5 =
      ⟨TickOutcome.failed 3 "down", [5, 5]⟩ ∧
    schedulerTicks true [(true, runsAlwaysFail), (true, runsTwoFailThenOk)] 3 5 =
      [⟨TickOutcome.failed 3 "down", [5, 5]⟩,
       executeTradingCycle true true runsTwoFailThenOk 3 5] :=
  retry_tick_outcomes 5 runsTwoFailThenOk runsAlwaysFail runsTwoFailThenOk
    "boom" "boom" "down" "down" "down" true rfl rfl rfl rfl rfl rfl

/-- C8 (code bug): in the composed program a tick whose pipeline run
failed is recorded as a completed tick on the first attempt, with no
retry, no delay and no failed record.  run_trading_cycle catches every
exception (main.py:221-223) and returns an error dict, the guard at
main.py:216 reads a status key run_hedge_fund never writes, and the retry
loop treats the non-empty dict as success and breaks (scheduler.py:61-65),
so the retry, delay and failed paths of scheduler.py:66-74 are unreachable
although run_trading_cycle reported the very failure in its error entry.
The retry machinery itself implements the claimed behavior for a raising
attempt (see the theorem on the loop in isolation above), which makes this
a wiring slip rather than a missing feature. -/
theorem pipeline_failure_tick_completed :
    (runTradingCycle (Except.ok ()) failedPipelineRun).error = some "boom" ∧
    (runTradingCycle (Except.ok ()) failedPipelineRun).decisions = none ∧
    executeTradingCycle true true
        (cycleAttempt (Except.ok ()) failedPipelineRun) 3 5 =
      ⟨TickOutcome.succeeded, []⟩ :=
  ⟨rfl, rfl, rfl⟩

/-- C9 (code bug): with no insider trades and a single neutral news item,
the sentiment producer emits a bearish signal with confidence -70, outside
the [0, 100] range the Signal data model requires and the scaling comment
in the source claims. -/
theorem sentiment_confidence_below_zero :
    sentimentSignal [] [NewsSentiment.neutral] = ("bearish", -70) ∧
    ¬ (0 ≤ (sentimentSignal [] [NewsSentiment.neutral]).2) := by
  have h : sentimentSignal [] [NewsSentiment.neutral] = ("bearish", -70) := by
    simp only [sentimentSignal, insiderSignalsOf, newsSignalsOf, bullishFrac,
      bearishFrac, insiderWeight, newsWeight, List.map_nil, List.map_cons,
      List.isEmpty_nil, List.isEmpty_cons, List.count_cons, List.count_nil,
      List.length_nil, List.length_cons]
    have hb : (("neutral" : String) == "bearish") = false := by decide
    have hu : (("neutral" : String) == "bullish") = false := by decide
    simp only [hb, hu]
    norm_num
  refine ⟨h, ?_⟩
  rw [h]
  norm_num

/-- C10 (amended): run_hedge_fund is total and stops the progress reporter
on every exit path; an exception from executor construction or from the
workflow invocation is caught and yields the dictionary with None in all
three result fields and the message under the error key; on the
workflow-success path exceptions of the execution stage and of response
parsing are absorbed internally, so the dictionary carries the analyst
signals, no error key, and the decisions parse of the final message. -/
theorem runHedgeFund_error_containment (executorConstruction : Except String Unit)
    (workflow : Except String FinalState)
    (placeOrder : String → String → Int → Except String String) :
    (runHedgeFund executorConstruction workflow placeOrder).progressStopped =
      true ∧
    (∀ e, executorConstruction = Except.error e →
      runHedgeFund executorConstruction workflow placeOrder =
        ⟨none, none, none, some e, true, false⟩) ∧
    (∀ e, executorConstruction = Except.ok () →
      workflow = Except.error e →
      runHedgeFund executorConstruction workflow placeOrder =
        ⟨none, none, none, some e, true, false⟩) ∧
    (∀ fs, executorConstruction = Except.ok () → workflow = Except.ok fs →
      (runHedgeFund executorConstruction workflow placeOrder).error = none ∧
      (runHedgeFund executorConstruction workflow placeOrder).analystSignals =
        some fs.analystSignals ∧
      (runHedgeFund executorConstruction workflow placeOrder).decisions =
        parseHedgeFundResponse fs.lastMessageJson) := by
  refine ⟨?_, ?_, ?_, ?_⟩
  · rcases executorConstruction with e | u
    · rfl
    · rcases workflow with e | fs
      · rfl
      · rfl
  · intro e he
    subst he
    rfl
  · intro e hu hw
    subst hu
    subst hw
    rfl
  · intro fs hu hw
    subst hu
    subst hw
    have hf := executePortfolioDecisions_fields placeOrder ⟨false⟩ fs
    exact ⟨rfl, by simp [runHedgeFund, hf.1], by simp [runHedgeFund, hf.2]⟩

theorem runHedgeFund_error_containment_witness :
    runHedgeFund (Except.error "Broker construction failed")
        (Except.ok sampleBuyState) (fun _ _ _ => Except.ok "oid") =
      ⟨none, none, none, some "Broker construction failed", true, false⟩ ∧
    runHedgeFund (Except.ok ()) (Except.error "workflow invocation failed")
        (fun _ _ _ => Except.ok "oid") =
      ⟨none, none, none, some "workflow invocation failed", true, false⟩ ∧
    ((runHedgeFund (Except.ok ()) (Except.ok sampleBuyState)
        (fun _ _ _ => Except.ok "oid")).error = none ∧
     (runHedgeFund (Except.ok ()) (Except.ok sampleBuyState)
        (fun _ _ _ => Except.ok "oid")).analystSignals =
       some sampleBuyState.analystSignals ∧
     (runHedgeFund (Except.ok ()) (Except.ok sampleBuyState)
        (fun _ _ _ => Except.ok "oid")).decisions =
       parseHedgeFundResponse sampleBuyState.lastMessageJson) :=
  ⟨(runHedgeFund_error_containment (Except.error "Broker construction failed")
      (Except.ok sampleBuyState) (fun _ _ _ => Except.ok "oid")).2.1 _ rfl,
   (runHedgeFund_error_containment (Except.ok ())
      (Except.error "workflow invocation failed")
      (fun _ _ _ => Except.ok "oid")).2.2.1 _ rfl rfl,
   (runHedgeFund_error_containment (Except.ok ()) (Except.ok sampleBuyState)
      (fun _ _ _ => Except.ok "oid")).2.2.2 sampleBuyState rfl rfl⟩

/-- C10 counterexample: when the final message is not a parseable decisions
dump, the internal parsing failure is absorbed, and run_hedge_fund returns
decisions None together with non-None analyst signals and no error entry,
against the claim that any internal stage failure yields None in all three
fields plus an error entry. -/
theorem parse_failure_without_error_field :
    (runHedgeFund (Except.ok ()) (Except.ok sampleUnparsedState)
        (fun _ _ _ => Except.ok "o")).decisions = none ∧
    (runHedgeFund (Except.ok ()) (Except.ok sampleUnparsedState)
        (fun _ _ _ => Except.ok "o")).analystSignals =
      some [("sentiment_agent", "sig")] ∧
    (runHedgeFund (Except.ok ()) (Except.ok sampleUnparsedState)
        (fun _ _ _ => Except.ok "o")).error = none :=
  ⟨rfl, rfl, rfl⟩

end HedgeFund
